import Mathlib

set_option linter.unusedVariables false

/-!
Shallow embedding of the peepers browsing-session core (src/models.rs together
with the table renderer of src/render.rs).

A `Table` is concrete tabular data: column names plus row-major cell data.
A `LazyFrame` is either an already-collected plan over concrete data
(`plain`, covering scanned files, engine query results and collected
samples) or the random-sampling plan that `shuffle_rows` builds on top of a
source frame (`samplePlan`).  Evaluating a `samplePlan` consults the random
generator, so `LazyFrame.collect` takes the generator as an argument; the
`rand` crate is external to this repository and is modelled as a function
`rng : List Bool → List Bool` applied to the unshuffled mask (where a claim
needs it, `rng` is assumed to permute its input).  Fallible engine calls are
modelled with `Option` / `Except`; a Rust panic is modelled as `none` and is
noted at the definition where it occurs.
-/

inductive ModifierState where
  | Original
  | Queried
  | RandomRows
deriving DecidableEq

/-- Concrete tabular data: column names and row-major cells (cell values are
modelled as integers; their concrete type is irrelevant to every claim). -/
structure Table where
  colNames : List String
  rows : List (List Int)
deriving DecidableEq

/-- An engine handle: a plan over concrete data (`plain`), or the sampling
plan `original.with_column(sample mask).filter(mask).select(exclude mask)
.slice(0, slice_len)` built by `shuffle_rows` before it collects. -/
inductive LazyFrame where
  | plain (t : Table)
  | samplePlan (src : LazyFrame) (first_col : String) (num_sample : Nat) (slice_len : Nat)
deriving DecidableEq

/-- Embeds `fn sample_col(s: Series, num_sample: usize) -> Series`
(src/models.rs:237).  `len` is `s.len()`.  The Rust code builds
`vec![true; num_sample]` extended with `vec![false; s.len() - num_sample]`
and shuffles it with `thread_rng`; the shuffle is the external `rng`.
`s.len() - num_sample` is an unchecked `usize` subtraction, so when
`len < num_sample` the Rust function panics (debug) or aborts on a wrapped
allocation (release); that panic is modelled as `none`. -/
def sample_col (len num_sample : Nat) (rng : List Bool → List Bool) : Option (List Bool) :=
  if num_sample ≤ len then
    some (rng (List.replicate num_sample true ++ List.replicate (len - num_sample) false))
  else
    none

/-- Polars boolean-mask row filter: keep the rows whose mask entry is true. -/
def maskFilter (mask : List Bool) (rows : List (List Int)) : List (List Int) :=
  (List.zip mask rows).filterMap (fun p => if p.1 then some p.2 else none)

/-- Evaluate a frame (polars `collect`).  A `plain` frame yields its data for
every generator; a `samplePlan` resolves `col(first_col)` in the source
schema (`none` if absent, as polars errors on an unknown column), builds
the mask with `sample_col` over the source row count, filters, and slices. -/
def LazyFrame.collect (lf : LazyFrame) (rng : List Bool → List Bool) : Option Table :=
  match lf with
  | .plain t => some t
  | .samplePlan src first_col num_sample slice_len =>
    match src.collect rng with
    | none => none
    | some t =>
      if first_col ∈ t.colNames then
        match sample_col t.rows.length num_sample rng with
        | none => none
        | some mask =>
          some { colNames := t.colNames, rows := (maskFilter mask t.rows).take slice_len }
      else none

/-- Plan schema (polars `LazyFrame::schema`, resolved without executing):
the sampling plan adds `_sample` and then excludes it again, so on success
the schema is the source schema; resolution fails if `first_col` is absent. -/
def LazyFrame.schemaNames : LazyFrame → Option (List String)
  | .plain t => some t.colNames
  | .samplePlan src first_col _ _ =>
    match src.schemaNames with
    | none => none
    | some names => if first_col ∈ names then some names else none

/-- Row count of a frame, obtained as the source does by collecting
`select([count()])` — an engine call whose outcome can depend on `rng`. -/
def LazyFrame.rowCount (lf : LazyFrame) (rng : List Bool → List Bool) : Option Nat :=
  (lf.collect rng).map (fun t => t.rows.length)

/-- Embeds `struct PeepFrame` (src/models.rs:16). -/
structure PeepFrame where
  file_name : String
  current_lazy_frame : LazyFrame
  original_lazy_frame : LazyFrame
  max_rows : Nat
  max_cols : Nat
  col_names : List String
  row_slice_state : Nat × Nat
  col_slice_state : Nat × Nat
  modifier_state : ModifierState
  display_rows : Nat
  display_cols : Nat
deriving DecidableEq

/-- Embeds the success path of `PeepFrame::from_file` (src/models.rs:34):
file IO, format detection and the initial scan are external; `t` is the
scanned dataset, so `max_rows`/`col_names` are its cardinalities. -/
def PeepFrame.from_file (file_name : String) (t : Table)
    (display_rows display_cols : Nat) : PeepFrame :=
  { file_name := file_name
    current_lazy_frame := .plain t
    original_lazy_frame := .plain t
    max_rows := t.rows.length
    max_cols := t.colNames.length
    col_names := t.colNames
    row_slice_state := (0, min display_rows t.rows.length)
    col_slice_state := (0, min display_cols t.colNames.length)
    modifier_state := .Original
    display_rows := display_rows
    display_cols := display_cols }

/-- Embeds `PeepFrame::update_with` (src/models.rs:88).  The row count and
the schema are fetched (both fallible, via `?`) before any field is
assigned, so a `none` result leaves the caller's frame untouched.  The
`RandomRows` branch reads the previous `col_slice_state.1` exactly as the
source reads `self.col_slice_state.0` before reassigning it. -/
def PeepFrame.update_with (pf : PeepFrame) (lf : LazyFrame)
    (new_modifier_state : ModifierState) (rng : List Bool → List Bool) :
    Option PeepFrame :=
  match lf.rowCount rng with
  | none => none
  | some max_rows =>
    match lf.schemaNames with
    | none => none
    | some col_names =>
      let max_cols := col_names.length
      match new_modifier_state with
      | .Original | .Queried =>
        some { pf with
          current_lazy_frame := lf
          max_rows := max_rows
          max_cols := max_cols
          col_names := col_names
          row_slice_state := (0, min pf.display_rows max_rows)
          modifier_state := new_modifier_state
          col_slice_state := (0, min pf.display_cols max_cols) }
      | .RandomRows =>
        some { pf with
          current_lazy_frame := lf
          max_rows := max_rows
          max_cols := max_cols
          col_names := col_names
          row_slice_state := (0, min pf.display_rows max_rows)
          modifier_state := new_modifier_state
          col_slice_state :=
            (pf.col_slice_state.1, min (pf.col_slice_state.1 + pf.display_cols) max_cols) }

/-- Embeds `PeepFrame::down` (src/models.rs:127).  `Nat` subtraction is
truncated, which is exactly `usize::saturating_sub`. -/
def PeepFrame.down (pf : PeepFrame) : PeepFrame :=
  { pf with row_slice_state :=
      (min (pf.row_slice_state.2 + pf.display_rows) pf.max_rows - pf.display_rows,
       min (pf.row_slice_state.2 + pf.display_rows) pf.max_rows) }

/-- Embeds `PeepFrame::up` (src/models.rs:137). -/
def PeepFrame.up (pf : PeepFrame) : PeepFrame :=
  { pf with row_slice_state :=
      (pf.row_slice_state.1 - pf.display_rows,
       min (pf.row_slice_state.1 - pf.display_rows + pf.display_rows) pf.max_rows) }

/-- Embeds `PeepFrame::right` (src/models.rs:147). -/
def PeepFrame.right (pf : PeepFrame) : PeepFrame :=
  { pf with col_slice_state :=
      (min (pf.col_slice_state.2 + pf.display_cols) pf.max_cols - pf.display_cols,
       min (pf.col_slice_state.2 + pf.display_cols) pf.max_cols) }

/-- Embeds `PeepFrame::left` (src/models.rs:157). -/
def PeepFrame.left (pf : PeepFrame) : PeepFrame :=
  { pf with col_slice_state :=
      (pf.col_slice_state.1 - pf.display_cols,
       min (pf.col_slice_state.1 - pf.display_cols + pf.display_cols) pf.max_cols) }

/-- Embeds `PeepFrame::jump_to_tail` (src/models.rs:167). -/
def PeepFrame.jump_to_tail (pf : PeepFrame) : PeepFrame :=
  { pf with row_slice_state := (pf.max_rows - pf.display_rows, pf.max_rows) }

/-- Embeds `PeepFrame::jump_to_head` (src/models.rs:173). -/
def PeepFrame.jump_to_head (pf : PeepFrame) : PeepFrame :=
  { pf with row_slice_state := (0, min pf.display_rows pf.max_rows) }

/-- Embeds `PeepFrame::execute_sql` (src/models.rs:180).  The SQL context
and engine are external: `engine` receives exactly what the source hands to
it — the registered dataset name `self.file_name`, the registered frame
`self.original_lazy_frame`, and the query text — and returns a new frame or
the engine's error.  An engine error propagates before `update_with` runs,
so the frame is untouched on failure; on success the result handle (a plan
returned by the engine, treated as collected data) is adopted with
`ModifierState.Queried`. -/
def PeepFrame.execute_sql (pf : PeepFrame)
    (engine : String → LazyFrame → String → Except String Table)
    (sql_query : String) (rng : List Bool → List Bool) :
    Except String PeepFrame :=
  match engine pf.file_name pf.original_lazy_frame sql_query with
  | .error e => .error e
  | .ok t =>
    match pf.update_with (.plain t) .Queried rng with
    | none => .error "metadata unavailable"
    | some pf1 => .ok pf1

/-- Embeds `PeepFrame::shuffle_rows` (src/models.rs:194).  The first cached
column name anchors the mask (`?` error when there are no cached names);
the sampling plan is built over `original_lazy_frame` with
`num_sample = slice_len = display_rows`, collected at once with the
call-time generator (freezing the sample), and the collected data is
adopted with `ModifierState.RandomRows`.  A failing collect (unknown
column, or the `sample_col` panic) propagates before any field changes. -/
def PeepFrame.shuffle_rows (pf : PeepFrame) (rng : List Bool → List Bool) :
    Except String PeepFrame :=
  match pf.col_names.head? with
  | none => .error "PeepFrame should have column names"
  | some first_col =>
    match (LazyFrame.samplePlan pf.original_lazy_frame first_col
      pf.display_rows pf.display_rows).collect rng with
    | none => .error "collect failed"
    | some df =>
      match pf.update_with (.plain df) .RandomRows rng with
      | none => .error "metadata unavailable"
      | some pf1 => .ok pf1

/-- Embeds `PeepFrame::reset_to_original` (src/models.rs:230). -/
def PeepFrame.reset_to_original (pf : PeepFrame) (rng : List Bool → List Bool) :
    Except String PeepFrame :=
  match pf.update_with pf.original_lazy_frame .Original rng with
  | none => .error "metadata unavailable"
  | some pf1 => .ok pf1

/-- The command surface of the session (src/control.rs): the six navigation
keys, `RunQuery` (carrying the external engine and query text), .
`SampleRandom` and `Reset`.  Fallible operations carry the generator their
engine calls would consume. -/
inductive Op where
  | down
  | up
  | left
  | right
  | head
  | tail
  | query (engine : String → LazyFrame → String → Except String Table)
      (sql_query : String) (rng : List Bool → List Bool)
  | sample (rng : List Bool → List Bool)
  | reset (rng : List Bool → List Bool)

/-- One step of the command loop (src/control.rs:26): a failing operation
leaves `peep_frame` exactly as it was (`&mut self` plus early `?` return). -/
def step (pf : PeepFrame) : Op → PeepFrame
  | .down => pf.down
  | .up => pf.up
  | .left => pf.left
  | .right => pf.right
  | .head => pf.jump_to_head
  | .tail => pf.jump_to_tail
  | .query engine q rng =>
    match pf.execute_sql engine q rng with
    | .ok pf1 => pf1
    | .error _ => pf
  | .sample rng =>
    match pf.shuffle_rows rng with
    | .ok pf1 => pf1
    | .error _ => pf
  | .reset rng =>
    match pf.reset_to_original rng with
    | .ok pf1 => pf1
    | .error _ => pf

/-- Run a whole command sequence from a state. -/
def stepList (pf : PeepFrame) (ops : List Op) : PeepFrame :=
  ops.foldl step pf

/-- The pure navigation subset of the command surface. -/
inductive NavOp where
  | down
  | up
  | left
  | right
  | head
  | tail
deriving DecidableEq

def applyNav (pf : PeepFrame) : NavOp → PeepFrame
  | .down => pf.down
  | .up => pf.up
  | .left => pf.left
  | .right => pf.right
  | .head => pf.jump_to_head
  | .tail => pf.jump_to_tail

def applyNavs (pf : PeepFrame) (ops : List NavOp) : PeepFrame :=
  ops.foldl applyNav pf

/-- Column projection (polars `select([cols(names)])`): `none` when a
requested name is missing from the frame. -/
def Table.selectCols (t : Table) (names : List String) : Option Table :=
  match names.mapM (fun n => t.colNames.findIdx? (fun c => c = n)) with
  | none => none
  | some idxs =>
    some { colNames := names, rows := t.rows.map (fun r => idxs.map (fun i => r.getD i 0)) }

/-- Embeds `render_table` (src/render.rs:35).  The source indexes the cached
names with `col_names[start..end]`, which panics when `start > end` or
`end > col_names.len()` — modelled as `none` — then slices the current
frame at `(row_slice_state.0, display_rows)`, selects those columns and
collects. -/
def render_table (pf : PeepFrame) (rng : List Bool → List Bool) :
    Option Table :=
  if pf.col_slice_state.1 ≤ pf.col_slice_state.2 ∧
      pf.col_slice_state.2 ≤ pf.col_names.length then
    let selected := (pf.col_names.drop pf.col_slice_state.1).take
      (pf.col_slice_state.2 - pf.col_slice_state.1)
    match pf.current_lazy_frame.collect rng with
    | none => none
    | some t =>
      Table.selectCols
        { colNames := t.colNames,
          rows := (t.rows.drop pf.row_slice_state.1).take pf.display_rows }
        selected
  else none

/-! Concrete data used to exercise the operations on explicit inputs. -/

/-- A one-column, five-row source dataset. -/
def t0 : Table := { colNames := ["a"], rows := [[1], [2], [3], [4], [5]] }

/-- A three-column query result over `t0` (for example
`select a, a as b, a as c from t`). -/
def tq : Table := { colNames := ["a", "b", "c"], rows := [[1, 1, 1]] }

/-- A query result whose first column name does not occur in `t0`. -/
def tzz : Table := { colNames := ["zz"], rows := [[7], [8]] }

/-- A one-column dataset with only two rows. -/
def tSmall : Table := { colNames := ["a"], rows := [[1], [2]] }

/-- Session loaded from `t0` with `display_rows = 2`, `display_cols = 1`. -/
def pf0 : PeepFrame := PeepFrame.from_file "t" t0 2 1

/-- Session loaded from `tSmall` with `display_rows = 5` — fewer data rows
than the configured page size. -/
def pfSmall : PeepFrame := PeepFrame.from_file "s" tSmall 5 3

/-- An engine that answers every query with the three-column result `tq`. -/
def engineQ : String → LazyFrame → String → Except String Table :=
  fun _ _ _ => .ok tq

/-- An engine that answers every query with `tzz`. -/
def engineZ : String → LazyFrame → String → Except String Table :=
  fun _ _ _ => .ok tzz

/-- An engine that rejects every query. -/
def engineE : String → LazyFrame → String → Except String Table :=
  fun _ _ _ => .error "boom"

/-- Query widening the column set to three, then scroll two columns right,
then sample: the trace on which the `RandomRows` column-window recompute
goes wrong. -/
def bugTrace : PeepFrame :=
  stepList pf0
    [.query engineQ "select a, a as b, a as c from t" (fun l => l),
     .right, .right, .sample (fun l => l)]

/-- The session after a successful `SampleRandom` on `pf0` (identity
generator). -/
def c7res : PeepFrame :=
  match pf0.shuffle_rows (fun l => l) with
  | .ok x => x
  | .error _ => pf0

/-- The session after a query whose result's only column is `zz`. -/
def pfQ : PeepFrame :=
  stepList pf0 [.query engineZ "select 1 as zz from t" (fun l => l)]

/-- The state adopted when `pf0` runs a query answered by `tq`. -/
def upd5 : PeepFrame :=
  (pf0.update_with (.plain tq) .Queried (fun l => l)).getD pf0

/-- The session `pf0` scrolled to the tail, where the row window already
ends at `max_rows`. -/
def pfTail : PeepFrame := pf0.jump_to_tail

/-! Helper lemmas shared by the claim theorems. -/

/-- Field-by-field description of a successful `update_with`. -/
theorem update_with_spec {pf : PeepFrame} {lf : LazyFrame} {ms : ModifierState}
    {rng : List Bool → List Bool} {pf1 : PeepFrame}
    (h : pf.update_with lf ms rng = some pf1) :
    pf1.current_lazy_frame = lf ∧
    pf1.modifier_state = ms ∧
    pf1.original_lazy_frame = pf.original_lazy_frame ∧
    pf1.display_rows = pf.display_rows ∧
    pf1.display_cols = pf.display_cols ∧
    pf1.file_name = pf.file_name ∧
    lf.rowCount rng = some pf1.max_rows ∧
    lf.schemaNames = some pf1.col_names ∧
    pf1.max_cols = pf1.col_names.length ∧
    pf1.row_slice_state = (0, min pf.display_rows pf1.max_rows) ∧
    ((ms = .Original ∨ ms = .Queried) →
      pf1.col_slice_state = (0, min pf.display_cols pf1.max_cols)) ∧
    (ms = .RandomRows →
      pf1.col_slice_state =
        (pf.col_slice_state.1,
         min (pf.col_slice_state.1 + pf.display_cols) pf1.max_cols)) := by
  unfold PeepFrame.update_with at h
  split at h
  · exact Option.noConfusion h
  next mr hr =>
    split at h
    · exact Option.noConfusion h
    next names hs =>
      split at h <;> cases h <;>
        refine ⟨rfl, rfl, rfl, rfl, rfl, rfl, hr, hs, rfl, rfl, ?_, ?_⟩
      · exact fun _ => rfl
      · exact fun hc => ModifierState.noConfusion hc
      · exact fun _ => rfl
      · exact fun hc => ModifierState.noConfusion hc
      · exact fun hc => hc.elim (fun hc => ModifierState.noConfusion hc)
          (fun hc => ModifierState.noConfusion hc)
      · exact fun _ => rfl

/-- A successful `execute_sql` decomposes into the engine call on the
original frame followed by a successful `update_with`. -/
theorem execute_sql_ok {pf : PeepFrame}
    {engine : String → LazyFrame → String → Except String Table}
    {q : String} {rng : List Bool → List Bool} {pf1 : PeepFrame}
    (h : pf.execute_sql engine q rng = .ok pf1) :
    ∃ t, engine pf.file_name pf.original_lazy_frame q = .ok t ∧
      pf.update_with (.plain t) .Queried rng = some pf1 := by
  unfold PeepFrame.execute_sql at h
  split at h
  · exact Except.noConfusion h
  next t hE =>
    split at h
    · exact Except.noConfusion h
    next pf2 hU =>
      cases h
      exact ⟨t, hE, hU⟩

/-- A successful `shuffle_rows` decomposes into the cached first column
name, a successful collect of the sampling plan over the original frame,
and a successful `update_with` of the collected data. -/
theorem shuffle_rows_ok {pf : PeepFrame} {rng : List Bool → List Bool}
    {pf1 : PeepFrame} (h : pf.shuffle_rows rng = .ok pf1) :
    ∃ c cs df, pf.col_names = c :: cs ∧
      (LazyFrame.samplePlan pf.original_lazy_frame c pf.display_rows
        pf.display_rows).collect rng = some df ∧
      pf.update_with (.plain df) .RandomRows rng = some pf1 := by
  unfold PeepFrame.shuffle_rows at h
  split at h
  · exact Except.noConfusion h
  next c hh =>
    split at h
    · exact Except.noConfusion h
    next df hc =>
      split at h
      · exact Except.noConfusion h
      next pf2 hU =>
        cases h
        rcases hn : pf.col_names with _ | ⟨c0, cs⟩
        · rw [hn] at hh; exact Option.noConfusion hh
        · rw [hn] at hh
          cases Option.some.inj hh
          exact ⟨_, _, df, rfl, hc, hU⟩

/-- Every single step preserves the original frame, the page sizes and the
dataset label. -/
theorem step_preserves (pf : PeepFrame) (op : Op) :
    (step pf op).original_lazy_frame = pf.original_lazy_frame ∧
    (step pf op).display_rows = pf.display_rows ∧
    (step pf op).display_cols = pf.display_cols ∧
    (step pf op).file_name = pf.file_name := by
  cases op with
  | down => exact ⟨rfl, rfl, rfl, rfl⟩
  | up => exact ⟨rfl, rfl, rfl, rfl⟩
  | left => exact ⟨rfl, rfl, rfl, rfl⟩
  | right => exact ⟨rfl, rfl, rfl, rfl⟩
  | head => exact ⟨rfl, rfl, rfl, rfl⟩
  | tail => exact ⟨rfl, rfl, rfl, rfl⟩
  | query engine q rng =>
    simp only [step]
    split
    next pf1 hq =>
      obtain ⟨t, _, hU⟩ := execute_sql_ok hq
      obtain ⟨_, _, h3, h4, h5, h6, _⟩ := update_with_spec hU
      exact ⟨h3, h4, h5, h6⟩
    next => exact ⟨rfl, rfl, rfl, rfl⟩
  | sample rng =>
    simp only [step]
    split
    next pf1 hq =>
      obtain ⟨c, cs, df, _, _, hU⟩ := shuffle_rows_ok hq
      obtain ⟨_, _, h3, h4, h5, h6, _⟩ := update_with_spec hU
      exact ⟨h3, h4, h5, h6⟩
    next => exact ⟨rfl, rfl, rfl, rfl⟩
  | reset rng =>
    simp only [step]
    split
    next pf1 hq =>
      unfold PeepFrame.reset_to_original at hq
      split at hq
      · exact Except.noConfusion hq
      next pf2 hU =>
        cases hq
        obtain ⟨_, _, h3, h4, h5, h6, _⟩ := update_with_spec hU
        exact ⟨h3, h4, h5, h6⟩
    next => exact ⟨rfl, rfl, rfl, rfl⟩

/-- `step_preserves`, extended to command sequences. -/
theorem stepList_preserves (pf : PeepFrame) (ops : List Op) :
    (stepList pf ops).original_lazy_frame = pf.original_lazy_frame ∧
    (stepList pf ops).display_rows = pf.display_rows ∧
    (stepList pf ops).display_cols = pf.display_cols ∧
    (stepList pf ops).file_name = pf.file_name := by
  induction ops generalizing pf with
  | nil => exact ⟨rfl, rfl, rfl, rfl⟩
  | cons op ops ih =>
    obtain ⟨i1, i2, i3, i4⟩ := ih (step pf op)
    obtain ⟨s1, s2, s3, s4⟩ := step_preserves pf op
    exact ⟨i1.trans s1, i2.trans s2, i3.trans s3, i4.trans s4⟩

/-- Navigation never touches the current frame. -/
theorem applyNavs_current (pf : PeepFrame) (ops : List NavOp) :
    (applyNavs pf ops).current_lazy_frame = pf.current_lazy_frame := by
  induction ops generalizing pf with
  | nil => rfl
  | cons op ops ih =>
    refine (ih (applyNav pf op)).trans ?_
    cases op <;> rfl

/-- Rendering a frame whose current plan is already collected is
independent of the random generator. -/
theorem render_table_of_plain {pf : PeepFrame} {t : Table}
    (h : pf.current_lazy_frame = .plain t)
    (rng1 rng2 : List Bool → List Bool) :
    render_table pf rng1 = render_table pf rng2 := by
  unfold render_table
  rw [h]
  simp only [LazyFrame.collect]

/-! Claim theorems. -/

/-- C1: the claim states that after every operation both windows satisfy
`0 ≤ start ≤ end ≤ total`, explicitly including the `RandomRows` branch of
the window recompute.  It fails on the code: on the reachable trace
`bugTrace` (load a 1-column 5-row table with page sizes 2×1, run a query
whose result has 3 columns, page right twice so the column window is
`(2, 3)`, then sample), `update_with` keeps the column start 2 while the
adopted handle has only 1 column, producing the inverted column window
`(2, 1)` with `columnCount = 1`; the subsequent render slices
`col_names[2..1]`, which panics in Rust (modelled as `none`). -/
theorem c1_random_rows_inverted_window :
    bugTrace.col_slice_state = (2, 1) ∧
    bugTrace.max_cols = 1 ∧
    bugTrace.col_slice_state.2 < bugTrace.col_slice_state.1 ∧
    render_table bugTrace (fun l => l) = none := by
  refine ⟨rfl, rfl, ?_, rfl⟩
  decide

/-- C2: the claim states that `SampleRandom` builds a mask of length
`rowCount` with exactly `min(pageRows, rowCount)` true entries and never
panics when `rowCount < pageRows`.  It fails on the code: `sample_col`
uses `num_sample = pageRows` unconditionally, and its unchecked
`s.len() - num_sample` underflows whenever `rowCount < pageRows` (`none`
in this model), so sampling `pfSmall` (2 rows, page size 5) dies instead
of returning `min(5, 2) = 2` rows. -/
theorem c2_sample_size_underflow :
    sample_col tSmall.rows.length pfSmall.display_rows (fun l => l) = none ∧
    pfSmall.shuffle_rows (fun l => l) = .error "collect failed" := by
  exact ⟨rfl, rfl⟩

/-- C3: when the engine rejects the query text, `execute_sql` returns that
error and the session state is bit-for-bit unchanged (`step` returns the
very same frame), so the caller can immediately retry. -/
theorem c3_query_error_leaves_state_unchanged (pf : PeepFrame)
    (engine : String → LazyFrame → String → Except String Table)
    (q : String) (rng : List Bool → List Bool) (e : String)
    (h : engine pf.file_name pf.original_lazy_frame q = .error e) :
    pf.execute_sql engine q rng = .error e ∧
    step pf (.query engine q rng) = pf := by
  have h1 : pf.execute_sql engine q rng = .error e := by
    unfold PeepFrame.execute_sql
    rw [h]
  refine ⟨h1, ?_⟩
  simp only [step]
  rw [h1]

/-- C3 witness: a concrete session and an engine rejecting every query. -/
theorem c3_witness :
    pf0.execute_sql engineE "select oops" (fun l => l) = .error "boom" ∧
    step pf0 (.query engineE "select oops" (fun l => l)) = pf0 :=
  c3_query_error_leaves_state_unchanged pf0 engineE "select oops"
    (fun l => l) "boom" rfl

/-- C4: `original_lazy_frame` is preserved by every command sequence, and
both `execute_sql` and `shuffle_rows` are insensitive to the current
frame — replacing `current_lazy_frame` by anything changes neither result,
because queries and samples are dispatched against the original frame
only. -/
theorem c4_operations_use_original_frame_only :
    (∀ (pf : PeepFrame) (ops : List Op),
      (stepList pf ops).original_lazy_frame = pf.original_lazy_frame) ∧
    (∀ (pf : PeepFrame) (lf : LazyFrame)
        (engine : String → LazyFrame → String → Except String Table)
        (q : String) (rng : List Bool → List Bool),
      ({ pf with current_lazy_frame := lf } : PeepFrame).execute_sql engine q rng =
        pf.execute_sql engine q rng) ∧
    (∀ (pf : PeepFrame) (lf : LazyFrame) (rng : List Bool → List Bool),
      ({ pf with current_lazy_frame := lf } : PeepFrame).shuffle_rows rng =
        pf.shuffle_rows rng) :=
  ⟨fun pf ops => (stepList_preserves pf ops).1,
   fun pf lf engine q rng => rfl,
   fun pf lf rng => rfl⟩

/-- C5: whenever `update_with` adopts a new handle, the row window is reset
to `(0, min(pageRows, rowCount))` unconditionally; the column window is
reset to `(0, min(pageCols, columnCount))` for target mode `Original` or
`Queried` and keeps its start (with `end = min(start + pageCols,
columnCount)`) for target mode `RandomRows`; and the mode and the current
handle change together in that same call. -/
theorem c5_adoption_window_policy (pf : PeepFrame) (lf : LazyFrame)
    (ms : ModifierState) (rng : List Bool → List Bool) (pf1 : PeepFrame)
    (h : pf.update_with lf ms rng = some pf1) :
    pf1.row_slice_state = (0, min pf.display_rows pf1.max_rows) ∧
    ((ms = .Original ∨ ms = .Queried) →
      pf1.col_slice_state = (0, min pf.display_cols pf1.max_cols)) ∧
    (ms = .RandomRows →
      pf1.col_slice_state =
        (pf.col_slice_state.1,
         min (pf.col_slice_state.1 + pf.display_cols) pf1.max_cols)) ∧
    pf1.modifier_state = ms ∧
    pf1.current_lazy_frame = lf := by
  obtain ⟨h1, h2, _, _, _, _, _, _, _, h10, h11, h12⟩ := update_with_spec h
  exact ⟨h10, h11, h12, h2, h1⟩

/-- C5 witness: `pf0` adopting the query result `tq` in `Queried` mode. -/
theorem c5_witness :
    upd5.row_slice_state = (0, min pf0.display_rows upd5.max_rows) ∧
    ((ModifierState.Queried = .Original ∨ ModifierState.Queried = .Queried) →
      upd5.col_slice_state = (0, min pf0.display_cols upd5.max_cols)) ∧
    (ModifierState.Queried = .RandomRows →
      upd5.col_slice_state =
        (pf0.col_slice_state.1,
         min (pf0.col_slice_state.1 + pf0.display_cols) upd5.max_cols)) ∧
    upd5.modifier_state = .Queried ∧
    upd5.current_lazy_frame = .plain tq :=
  c5_adoption_window_policy pf0 (.plain tq) .Queried (fun l => l) upd5 rfl

/-- C6: the four paging operations implement exactly the saturating window
arithmetic of the claim, stated over the integers so that the
`max 0 (end - page)` clamping is explicit; and once a `pageDown` has
brought the row-window end to `rowCount`, a further `pageDown` leaves the
whole frame unchanged. -/
theorem c6_paging_formulas (pf : PeepFrame) :
    ((pf.down.row_slice_state.2 : Int) =
        min ((pf.row_slice_state.2 : Int) + (pf.display_rows : Int))
          (pf.max_rows : Int) ∧
      (pf.down.row_slice_state.1 : Int) =
        max 0 ((pf.down.row_slice_state.2 : Int) - (pf.display_rows : Int))) ∧
    ((pf.up.row_slice_state.1 : Int) =
        max 0 ((pf.row_slice_state.1 : Int) - (pf.display_rows : Int)) ∧
      (pf.up.row_slice_state.2 : Int) =
        min ((pf.up.row_slice_state.1 : Int) + (pf.display_rows : Int))
          (pf.max_rows : Int)) ∧
    ((pf.right.col_slice_state.2 : Int) =
        min ((pf.col_slice_state.2 : Int) + (pf.display_cols : Int))
          (pf.max_cols : Int) ∧
      (pf.right.col_slice_state.1 : Int) =
        max 0 ((pf.right.col_slice_state.2 : Int) - (pf.display_cols : Int))) ∧
    ((pf.left.col_slice_state.1 : Int) =
        max 0 ((pf.col_slice_state.1 : Int) - (pf.display_cols : Int)) ∧
      (pf.left.col_slice_state.2 : Int) =
        min ((pf.left.col_slice_state.1 : Int) + (pf.display_cols : Int))
          (pf.max_cols : Int)) ∧
    (pf.down.row_slice_state.2 = pf.max_rows → pf.down.down = pf.down) := by
  obtain ⟨f, cur, orig, mr, mc, cn, ⟨ra, rb⟩, ⟨ca, cb⟩, ms, dr, dc⟩ := pf
  refine ⟨⟨?_, ?_⟩, ⟨?_, ?_⟩, ⟨?_, ?_⟩, ⟨?_, ?_⟩, ?_⟩ <;>
    simp only [PeepFrame.down, PeepFrame.up, PeepFrame.right, PeepFrame.left]
  · omega
  · omega
  · omega
  · omega
  · omega
  · omega
  · omega
  · omega
  · intro h
    simp only [PeepFrame.mk.injEq, Prod.mk.injEq, and_true, true_and]
    constructor <;> omega

/-- C6 witness: from the tail position a `pageDown` reaches the end, and
the next `pageDown` changes nothing. -/
theorem c6_witness : pfTail.down.down = pfTail.down :=
  (c6_paging_formulas pfTail).2.2.2.2 (by decide)

/-- C7: a successful `SampleRandom` adopts a fully collected (`plain`)
handle, so rendering the resulting session — also after any further
navigation, column scrolling included — is independent of the random
generator: the frozen sample cannot be re-shuffled by a redraw. -/
theorem c7_materialized_sample_stable (pf pf1 : PeepFrame)
    (rng0 : List Bool → List Bool) (h : pf.shuffle_rows rng0 = .ok pf1)
    (navs : List NavOp) (rng1 rng2 : List Bool → List Bool) :
    (∃ t, pf1.current_lazy_frame = .plain t) ∧
    render_table (applyNavs pf1 navs) rng1 =
      render_table (applyNavs pf1 navs) rng2 := by
  obtain ⟨c, cs, df, _, _, hU⟩ := shuffle_rows_ok h
  have hcur : pf1.current_lazy_frame = .plain df := (update_with_spec hU).1
  refine ⟨⟨df, hcur⟩, ?_⟩
  exact render_table_of_plain ((applyNavs_current pf1 navs).trans hcur) rng1 rng2

/-- C7 witness: sampling `pf0`, then scrolling, renders identically under
two different generators. -/
theorem c7_witness :
    (∃ t, c7res.current_lazy_frame = .plain t) ∧
    render_table (applyNavs c7res [NavOp.right, NavOp.down]) (fun l => l) =
      render_table (applyNavs c7res [NavOp.right, NavOp.down])
        (fun l => List.reverse l) :=
  c7_materialized_sample_stable pf0 c7res (fun l => l) rfl
    [NavOp.right, NavOp.down] (fun l => l) (fun l => List.reverse l)

/-- C8: after any command sequence, `Reset` succeeds (the original handle
is a collected scan, so its metadata is always available), restores
`current_lazy_frame` to the original handle, sets mode `Original`, and
resets both windows against the original dataset's cardinalities. -/
theorem c8_reset_restores_original (init : PeepFrame) (ops : List Op)
    (t : Table) (rng : List Bool → List Bool)
    (h : init.original_lazy_frame = .plain t) :
    ∃ pf1, (stepList init ops).reset_to_original rng = .ok pf1 ∧
      pf1.current_lazy_frame = init.original_lazy_frame ∧
      pf1.original_lazy_frame = init.original_lazy_frame ∧
      pf1.modifier_state = .Original ∧
      pf1.max_rows = t.rows.length ∧
      pf1.max_cols = t.colNames.length ∧
      pf1.row_slice_state = (0, min init.display_rows t.rows.length) ∧
      pf1.col_slice_state = (0, min init.display_cols t.colNames.length) := by
  obtain ⟨p1, p2, p3, _⟩ := stepList_preserves init ops
  have horig : (stepList init ops).original_lazy_frame = .plain t := p1.trans h
  have hup : (stepList init ops).update_with (.plain t) .Original rng = some
      { stepList init ops with
        current_lazy_frame := .plain t
        max_rows := t.rows.length
        max_cols := t.colNames.length
        col_names := t.colNames
        row_slice_state := (0, min (stepList init ops).display_rows t.rows.length)
        modifier_state := .Original
        col_slice_state := (0, min (stepList init ops).display_cols t.colNames.length) } :=
    rfl
  refine ⟨{ stepList init ops with
      current_lazy_frame := .plain t
      max_rows := t.rows.length
      max_cols := t.colNames.length
      col_names := t.colNames
      row_slice_state := (0, min (stepList init ops).display_rows t.rows.length)
      modifier_state := .Original
      col_slice_state := (0, min (stepList init ops).display_cols t.colNames.length) },
    ?_, ?_, ?_, ?_, ?_, ?_, ?_, ?_⟩
  · unfold PeepFrame.reset_to_original
    rw [horig, hup]
  · rw [h]
  · exact p1
  · rfl
  · rfl
  · rfl
  · show (0, min (stepList init ops).display_rows t.rows.length) = _
    rw [p2]
  · show (0, min (stepList init ops).display_cols t.colNames.length) = _
    rw [p3]

/-- C8 witness: reset after a sample on `pf0`. -/
theorem c8_witness :
    ∃ pf1, (stepList pf0 [Op.sample (fun l => l)]).reset_to_original
        (fun l => l) = .ok pf1 ∧
      pf1.current_lazy_frame = pf0.original_lazy_frame ∧
      pf1.original_lazy_frame = pf0.original_lazy_frame ∧
      pf1.modifier_state = .Original ∧
      pf1.max_rows = t0.rows.length ∧
      pf1.max_cols = t0.colNames.length ∧
      pf1.row_slice_state = (0, min pf0.display_rows t0.rows.length) ∧
      pf1.col_slice_state = (0, min pf0.display_cols t0.colNames.length) :=
  c8_reset_restores_original pf0 [Op.sample (fun l => l)] t0 (fun l => l) rfl

/-- C9: each navigation operation is a total function that rewrites only
its own window pair: the whole result frame is the input frame with just
`row_slice_state` (resp. `col_slice_state`) replaced, so the mode, both
handles, the cached counts and names, the page sizes and the other window
are untouched. -/
theorem c9_navigation_touches_only_its_window (pf : PeepFrame) :
    pf.down = { pf with row_slice_state := pf.down.row_slice_state } ∧
    pf.up = { pf with row_slice_state := pf.up.row_slice_state } ∧
    pf.jump_to_head = { pf with row_slice_state := pf.jump_to_head.row_slice_state } ∧
    pf.jump_to_tail = { pf with row_slice_state := pf.jump_to_tail.row_slice_state } ∧
    pf.right = { pf with col_slice_state := pf.right.col_slice_state } ∧
    pf.left = { pf with col_slice_state := pf.left.col_slice_state } :=
  ⟨rfl, rfl, rfl, rfl, rfl, rfl⟩

/-- C10: `shuffle_rows` anchors the mask to the first element of the
session's cached `col_names` — cached from the current handle — while
filtering the original frame: it can only succeed when the cache is
non-empty and its head is a column of the original dataset, and from a
state whose first cached name is not an original column it fails with the
collect error and `step` leaves the session unchanged. -/
theorem c10_sample_mask_anchored_to_cached_first_column (pf : PeepFrame)
    (t : Table) (rng : List Bool → List Bool)
    (horig : pf.original_lazy_frame = .plain t) :
    (∀ pf1, pf.shuffle_rows rng = .ok pf1 →
      ∃ c cs, pf.col_names = c :: cs ∧ c ∈ t.colNames) ∧
    (∀ c cs, pf.col_names = c :: cs → c ∉ t.colNames →
      pf.shuffle_rows rng = .error "collect failed" ∧
      step pf (.sample rng) = pf) := by
  constructor
  · intro pf1 h
    obtain ⟨c, cs, df, hn, hc, _⟩ := shuffle_rows_ok h
    refine ⟨c, cs, hn, ?_⟩
    rw [horig] at hc
    simp only [LazyFrame.collect] at hc
    by_cases hm : c ∈ t.colNames
    · exact hm
    · rw [if_neg hm] at hc
      exact Option.noConfusion hc
  · intro c cs hn hm
    have hh : pf.col_names.head? = some c := by rw [hn]; rfl
    have hcol : pf.shuffle_rows rng = .error "collect failed" := by
      simp only [PeepFrame.shuffle_rows, hh, horig, LazyFrame.collect]
      rw [if_neg hm]
    refine ⟨hcol, ?_⟩
    simp only [step, hcol]

/-- C10 witness: after a query whose result's only column is `zz` (absent
from the original dataset `t0`), sampling fails and changes nothing, even
though `t0` itself has a column. -/
theorem c10_witness :
    pfQ.shuffle_rows (fun l => l) = .error "collect failed" ∧
    step pfQ (.sample (fun l => l)) = pfQ :=
  (c10_sample_mask_anchored_to_cached_first_column pfQ t0 (fun l => l) rfl).2
    "zz" [] rfl (by decide)
